import Mathlib

/-!
Shallow embedding of the Whist real-time client core
(`src/angular-web/src/app/core/services/game.service.ts`,
`src/angular-web/src/app/core/services/websocket.service.ts`,
`src/angular-web/src/app/features/game/components/bidding-phase/bidding-phase.component.ts`,
`src/angular-web/src/app/features/game/components/tricks-phase/tricks-phase.component.ts`).

JS objects keyed by integer player indices are embedded as association
lists with unique keys (`SelMap`); JS `Set<number>` as insertion-ordered
duplicate-free lists; JS numbers carrying bids/tricks as `Int`.
Malformed payloads (NaN player index, missing value fields), which the
source drops before touching state, are not representable here: handlers
receive already-parsed values.
-/

namespace Whist

/-- Game phase, `'bidding' | 'tricks'` in the source. -/
inductive Phase where
  | bidding
  | tricks
deriving DecidableEq, Repr

/-- Round mode, `'over' | 'under'` in the source. -/
inductive RoundMode where
  | over
  | under
deriving DecidableEq, Repr

/-- A JS object keyed by player index (`{[playerIndex: number]: number}`). -/
abbrev SelMap := List (Nat × Int)

/-- Overwrite-or-append update, the effect of `{...current, [idx]: v}`. -/
def selSet (m : SelMap) (k : Nat) (v : Int) : SelMap :=
  match m with
  | [] => [(k, v)]
  | (k2, v2) :: rest => if k2 = k then (k, v) :: rest else (k2, v2) :: selSet rest k v

/-- Lookup in a `SelMap`. -/
def selLookup (m : SelMap) (k : Nat) : Option Int :=
  match m with
  | [] => none
  | (k2, v2) :: rest => if k2 = k then some v2 else selLookup rest k

/-- `Set.add`: append if absent (JS sets preserve insertion order). -/
def setInsert (s : List Nat) (k : Nat) : List Nat :=
  if s.contains k then s else s ++ [k]

/-- `xs.reduce((a, b) => a + b, 0)`. -/
def intSum (l : List Int) : Int :=
  l.foldl (fun a b => a + b) 0

/-- JS string truthiness on an optional string: `null`/`undefined`/`""` are falsy. -/
def truthy (s : Option String) : Option String :=
  match s with
  | none => none
  | some str => if str = "" then none else some str

/-! ## BiddingPhaseComponent (current revision, the one with live sync) -/

/-- Mutable fields of `BiddingPhaseComponent` that the bidding flow touches. -/
structure BiddingPhaseState where
  selectedTrumpSuit : Option String
  bids : List Int
  liveBids : SelMap
  totalBids : Int
  roundMode : RoundMode
  currentPlayerIndex : Option Nat
deriving Repr, DecidableEq

/-- The `forEach` in `updateTotalBids`: overwrite `allBids[idx]` with each
live entry whose index is in range (`idx >= 0 && idx < allBids.length`). -/
def applyLiveEntries (base : List Int) (live : SelMap) : List Int :=
  live.foldl (fun acc kv => if kv.1 < acc.length then acc.set kv.1 kv.2 else acc) base

/-- The side assignment in the same `forEach`: for an in-range live index equal
to `currentPlayerIndex`, also sync `this.bids[idx]`. -/
def syncOwnBid (base : List Int) (live : SelMap) (cpi : Option Nat) : List Int :=
  live.foldl
    (fun acc kv =>
      if kv.1 < acc.length && some kv.1 == cpi then acc.set kv.1 kv.2 else acc)
    base

/-- `BiddingPhaseComponent.updateTotalBids`. -/
def updateTotalBids (st : BiddingPhaseState) : BiddingPhaseState :=
  let allBids := applyLiveEntries st.bids st.liveBids
  { st with
    bids := syncOwnBid st.bids st.liveBids st.currentPlayerIndex
    totalBids := intSum allBids
    roundMode := if intSum allBids > 13 then RoundMode.over else RoundMode.under }

/-- `BiddingPhaseComponent.onBidChange` up to its WebSocket side effect. -/
def onBidChange (st : BiddingPhaseState) (playerIndex : Nat) (bid : Int) :
    BiddingPhaseState :=
  updateTotalBids { st with bids := st.bids.set playerIndex bid }

/-- The live-bid-selections subscription handler in `ngOnInit`: replace
`liveBids`, sync every in-range live entry into `bids`, recompute totals. -/
def onLiveBidSelections (st : BiddingPhaseState) (selections : SelMap) :
    BiddingPhaseState :=
  updateTotalBids
    { st with
      liveBids := selections
      bids := applyLiveEntries st.bids selections }

/-- Payload of the `bidsSubmit` event. -/
structure BidsSubmitEvent where
  bids : List Int
  trumpSuit : Option String
deriving Repr, DecidableEq

/-- `BiddingPhaseComponent.canSubmit`. -/
def biddingCanSubmit (st : BiddingPhaseState) : Bool :=
  st.bids.all (fun bid => decide (0 ≤ bid) && decide (bid ≤ 13)) && st.totalBids != 13

/-- `BiddingPhaseComponent.onSubmit`: emit the event iff the guard passes
(`trumpSuit: this.selectedTrumpSuit || undefined`), never mutating state. -/
def biddingOnSubmit (st : BiddingPhaseState) : Option BidsSubmitEvent :=
  if st.bids.all (fun bid => decide (0 ≤ bid) && decide (bid ≤ 13)) &&
      st.totalBids != 13 then
    some { bids := st.bids, trumpSuit := truthy st.selectedTrumpSuit }
  else
    none

/-- `onSubmit` as a state transformer: the component state after the call,
paired with the emitted event if any. -/
def biddingOnSubmitRun (st : BiddingPhaseState) :
    BiddingPhaseState × Option BidsSubmitEvent :=
  (st, biddingOnSubmit st)

/-! ## TricksPhaseComponent -/

/-- Mutable fields of `TricksPhaseComponent` that the submit flow touches. -/
structure TricksPhaseState where
  tricks : List Int
  liveTricks : SelMap
  bids : List Int
  totalTricks : Int
  currentPlayerIndex : Option Nat
  lockedTricks : List Nat
  isGameOwner : Bool
deriving Repr, DecidableEq

/-- `TricksPhaseComponent.updateTotalTricks`. -/
def updateTotalTricks (st : TricksPhaseState) : TricksPhaseState :=
  let allTricks := applyLiveEntries st.tricks st.liveTricks
  { st with
    tricks := syncOwnBid st.tricks st.liveTricks st.currentPlayerIndex
    totalTricks := intSum allTricks }

/-- `TricksPhaseComponent.onSubmit`: emit the tricks iff the guard passes,
never mutating state. -/
def tricksOnSubmit (st : TricksPhaseState) : Option (List Int) :=
  if st.totalTricks == 13 &&
      st.tricks.all (fun trick => decide (0 ≤ trick) && decide (trick ≤ 13)) then
    some st.tricks
  else
    none

/-- `onSubmit` as a state transformer. -/
def tricksOnSubmitRun (st : TricksPhaseState) :
    TricksPhaseState × Option (List Int) :=
  (st, tricksOnSubmit st)

/-! ## GameService: identity resolution -/

/-- JS whitespace as far as the ASCII identifiers in play are concerned. -/
def isJsSpace (c : Char) : Bool :=
  c = ' ' || c = '\t' || c = '\n' || c = '\r'

/-- `String.prototype.trim`, on the character list. -/
def trimChars (l : List Char) : List Char :=
  ((l.dropWhile isJsSpace).reverse.dropWhile isJsSpace).reverse

/-- `String.prototype.trim` (ASCII whitespace; the ids in play are ASCII). -/
def jsTrim (s : String) : String :=
  String.mk (trimChars s.data)

/-- `String.prototype.toLowerCase` (ASCII; the ids in play are ASCII). -/
def jsToLower (s : String) : String :=
  String.mk (s.data.map Char.toLower)

/-- `GameService.normalizeUuid`: falsy input (`null`/`undefined`/`""`) maps to
`null`; otherwise trim, lower-case, and strip every dash via the global
regex replace. -/
def normalizeUuid (uuid : Option String) : Option String :=
  match uuid with
  | none => none
  | some s =>
    if s = "" then none
    else some (String.mk ((jsToLower (jsTrim s)).data.filter (fun c => c ≠ Char.ofNat 45)))

/-- The `findIndex` predicate used in `setCurrentPlayerIndex`: skip falsy seat
ids, then compare normalized forms. -/
def seatMatchesNorm (normTarget : String) (seatId : Option String) : Bool :=
  match seatId with
  | none => false
  | some id => if id = "" then false else normalizeUuid (some id) == some normTarget

/-- The raw-fallback `findIndex` predicate: skip falsy ids, then compare
`String(id).trim().toLowerCase()` with `tokenUserId.toLowerCase()`. -/
def seatMatchesRaw (token : String) (seatId : Option String) : Bool :=
  match seatId with
  | none => false
  | some id => if id = "" then false else (jsToLower (jsTrim id) == jsToLower token)

/-- JS `Array.prototype.findIndex`, with `-1` embedded as `none`. -/
def findIndex {α : Type} (p : α → Bool) : List α → Option Nat
  | [] => none
  | a :: as => if p a then some 0 else (findIndex p as).map (fun j => j + 1)

/-- Caller identity as the two fallback extractors surface it:
`extractUserIdFromToken()` and `extractUserIdFromUser(await getUser())`. -/
structure IdentityCtx where
  tokenUserId : Option String
  authUserId : Option String
deriving Repr, DecidableEq

/-- `GameService.setCurrentPlayerIndex`, as the pure resolution of the seat
index from `game.player_user_ids` and the ambient caller identity: token path
with normalization, then auth-user path with normalization, then the raw
token fallback, else `null`. Each normalized path runs only under the
source's truthiness guards (`if (tokenUserId)` then `if (normalizedTokenId)`,
and likewise for the user-object id), so an identity whose normalized form is
the empty string is skipped, not matched. -/
def resolveSeat (ids : List (Option String)) (ctx : IdentityCtx) : Option Nat :=
  if ids.isEmpty then none
  else
    let byToken :=
      match truthy (normalizeUuid ctx.tokenUserId) with
      | some nt => findIndex (seatMatchesNorm nt) ids
      | none => none
    match byToken with
    | some i => some i
    | none =>
      let byUser :=
        match truthy (normalizeUuid ctx.authUserId) with
        | some nu => findIndex (seatMatchesNorm nu) ids
        | none => none
      match byUser with
      | some i => some i
      | none =>
        match truthy ctx.tokenUserId with
        | some t => findIndex (seatMatchesRaw t) ids
        | none => none

/-! ## GameService: state and inbound message handler -/

/-- The slice of the external `GameState` record this core reads. -/
structure GameInfo where
  playerUserIds : List (Option String)
  ownerId : Option String
deriving Repr, DecidableEq

/-- The `BehaviorSubject` fields of `GameService` (plus the resolved seat). -/
structure GameServiceState where
  gameState : Option GameInfo
  currentPhase : Phase
  currentBids : Option (List Int)
  currentTrumpSuit : Option String
  liveBidSelections : SelMap
  liveTrickSelections : SelMap
  liveTrumpSelection : Option String
  lockedBids : List Nat
  lockedTricks : List Nat
  loading : Bool
  errorMsg : Option String
  currentPlayerIndex : Option Nat
deriving Repr, DecidableEq

/-- Inbound WebSocket messages handled in `connectWebSocket` (well-formed
payloads only: the source drops NaN indices and missing values). -/
inductive ServerMessage where
  | gameUpdate (game : GameInfo)
  | phaseUpdate (phase : Phase)
  | bidSelection (playerIndex : Nat) (bid : Int)
  | betChange (playerIndex : Nat) (bid : Int)
  | betLocked (playerIndex : Nat)
  | roundResultChanged (playerIndex : Nat) (trick : Int)
  | roundScoreLocked (playerIndex : Nat)
  | trickSelection (playerIndex : Nat) (trick : Int)
  | trumpSelection (trumpSuit : Option String)
  | bidsSubmitted (game : GameInfo) (dataBids : Option (List Int))
      (dataTrump : Option String)
  | tricksSubmitted (game : GameInfo)
  | errorNotice (message : Option String)
deriving Repr, DecidableEq

/-- `bids_submitted` handler helper: `Array(4).fill(0)` overwritten by every
live entry with `0 <= idx < 4`. -/
def bidsArrayFromLive (m : SelMap) : List Int :=
  m.foldl (fun acc kv => if kv.1 < 4 then acc.set kv.1 kv.2 else acc)
    (List.replicate 4 0)

/-- The message dispatch in `GameService.connectWebSocket`. -/
def handleMessage (ctx : IdentityCtx) (st : GameServiceState) (m : ServerMessage) :
    GameServiceState :=
  match m with
  | .gameUpdate g =>
    { st with
      gameState := some g
      currentPlayerIndex := resolveSeat g.playerUserIds ctx }
  | .phaseUpdate p => { st with currentPhase := p }
  | .bidSelection i b =>
    { st with liveBidSelections := selSet st.liveBidSelections i b }
  | .betChange i b =>
    { st with liveBidSelections := selSet st.liveBidSelections i b }
  | .betLocked i => { st with lockedBids := setInsert st.lockedBids i }
  | .roundResultChanged i t =>
    { st with liveTrickSelections := selSet st.liveTrickSelections i t }
  | .roundScoreLocked i => { st with lockedTricks := setInsert st.lockedTricks i }
  | .trickSelection i t =>
    { st with liveTrickSelections := selSet st.liveTrickSelections i t }
  | .trumpSelection suit => { st with liveTrumpSelection := suit }
  | .bidsSubmitted g dataBids dataTrump =>
    let fromLive : Option (List Int) :=
      if st.liveBidSelections.length == 4 then
        some (bidsArrayFromLive st.liveBidSelections)
      else st.currentBids
    let newBids : Option (List Int) :=
      match dataBids with
      | some bs => some bs
      | none => fromLive
    let newTrump : Option String :=
      match truthy dataTrump with
      | some t => some t
      | none => st.currentTrumpSuit
    { st with
      gameState := some g
      currentPhase := Phase.tricks
      currentBids := newBids
      currentTrumpSuit := newTrump
      liveBidSelections := []
      liveTrickSelections := []
      liveTrumpSelection := none
      lockedBids := []
      lockedTricks := []
      loading := false }
  | .tricksSubmitted g =>
    { st with
      gameState := some g
      currentBids := none
      currentTrumpSuit := none
      currentPhase := Phase.bidding
      liveBidSelections := []
      liveTrickSelections := []
      liveTrumpSelection := none
      lockedBids := []
      lockedTricks := []
      loading := false }
  | .errorNotice msg =>
    { st with
      errorMsg := some (match truthy msg with
        | some s => s
        | none => "An error occurred") }

/-! ## GameService: outbound sends -/

/-- Messages the client sends over the WebSocket. -/
inductive ClientMessage where
  | bidSelection (playerIndex : Nat) (bid : Int)
  | betChange (playerIndex : Nat) (bid : Int)
  | betLocked (playerIndex : Nat)
  | trickSelection (playerIndex : Nat) (trick : Int)
  | roundResultChanged (playerIndex : Nat) (trick : Int)
  | roundScoreLocked (playerIndex : Nat)
  | trumpSelection (trumpSuit : Option String)
  | submitBids (bids : List Int) (trumpSuit : Option String)
  | submitTricks (tricks : List Int) (bids : List Int) (trumpSuit : Option String)
deriving Repr, DecidableEq

/-- `GameService.isBidLocked`. -/
def isBidLocked (st : GameServiceState) (playerIndex : Nat) : Bool :=
  st.lockedBids.contains playerIndex

/-- `GameService.isTrickLocked`. -/
def isTrickLocked (st : GameServiceState) (playerIndex : Nat) : Bool :=
  st.lockedTricks.contains playerIndex

/-- `GameService.sendBidSelection`: the list of messages actually sent.
`connected` is `wsService.isConnected()`; `isGameOwner` is the caller flag. -/
def sendBidSelection (st : GameServiceState) (connected : Bool)
    (playerIndex : Nat) (bid : Int) (isGameOwner : Bool) : List ClientMessage :=
  if !connected then []
  else if st.currentPlayerIndex.isNone && !isGameOwner then []
  else if isBidLocked st playerIndex then []
  else
    let canSend := isGameOwner ||
      (st.currentPlayerIndex.isSome && st.currentPlayerIndex == some playerIndex)
    if canSend then
      [ClientMessage.bidSelection playerIndex bid,
       ClientMessage.betChange playerIndex bid]
    else []

/-- `GameService.lockBid`: `isOwner` is the awaited `isGameOwnerAsync()`. -/
def lockBid (st : GameServiceState) (connected : Bool) (isOwner : Bool)
    (playerIndex : Nat) : List ClientMessage :=
  if !connected then []
  else if isBidLocked st playerIndex then []
  else
    let isOwnBid := st.currentPlayerIndex == some playerIndex
    if (isOwnBid && st.currentPlayerIndex.isSome) || isOwner then
      [ClientMessage.betLocked playerIndex]
    else []

/-- `GameService.sendTrumpSelection`: only connectivity and having a resolved
seat are checked, never a target seat, a lock set, or ownership. -/
def sendTrumpSelection (st : GameServiceState) (connected : Bool)
    (trumpSuit : Option String) : List ClientMessage :=
  if !connected || st.currentPlayerIndex.isNone then []
  else [ClientMessage.trumpSelection trumpSuit]

/-- `GameService.sendTrickSelection`. -/
def sendTrickSelection (st : GameServiceState) (connected : Bool)
    (playerIndex : Nat) (trick : Int) (isGameOwner : Bool) : List ClientMessage :=
  if !connected then []
  else if st.currentPlayerIndex.isNone && !isGameOwner then []
  else if isTrickLocked st playerIndex then []
  else
    let canSend := isGameOwner ||
      (st.currentPlayerIndex.isSome && st.currentPlayerIndex == some playerIndex)
    if canSend then
      [ClientMessage.trickSelection playerIndex trick,
       ClientMessage.roundResultChanged playerIndex trick]
    else []

/-- `GameService.lockTrick`. -/
def lockTrick (st : GameServiceState) (connected : Bool) (isOwner : Bool)
    (playerIndex : Nat) : List ClientMessage :=
  if !connected then []
  else if isTrickLocked st playerIndex then []
  else
    let isOwnTrick := st.currentPlayerIndex == some playerIndex
    if (isOwnTrick && st.currentPlayerIndex.isSome) || isOwner then
      [ClientMessage.roundScoreLocked playerIndex]
    else []

/-! ## GameService.submitBids -/

/-- Result of one `submitBids` call: the new service state, the messages that
went out, and the JS return/throw. -/
structure SubmitOutcome where
  state : GameServiceState
  sent : List ClientMessage
  result : Except String Unit
deriving Repr

/-- `GameService.submitBids`. `connected` is `wsService.isConnected()` at the
guard; `sendFault = some msg` models `wsService.send` throwing an exception
with that message inside the `try` block (`none` = the send succeeds). The
`catch` branch surfaces `error.message || 'Failed to submit bids'`, nulls the
tentatively stored bids and trump, and rethrows; `finally` clears `loading`. -/
def submitBidsRun (st : GameServiceState) (connected : Bool)
    (sendFault : Option String) (bids : List Int) (trumpSuit : Option String) :
    SubmitOutcome :=
  match st.gameState with
  | none => ⟨st, [], Except.error "No game loaded"⟩
  | some _ =>
    if !connected then ⟨st, [], Except.error "WebSocket is not connected"⟩
    else
      let st1 := { st with
        loading := true
        errorMsg := none
        currentBids := some bids
        currentTrumpSuit := truthy trumpSuit }
      match sendFault with
      | none =>
        ⟨{ st1 with loading := false },
          [ClientMessage.submitBids bids trumpSuit], Except.ok ()⟩
      | some em =>
        ⟨{ st1 with
            errorMsg := some (match truthy (some em) with
              | some s => s
              | none => "Failed to submit bids")
            currentBids := none
            currentTrumpSuit := none
            loading := false },
          [], Except.error em⟩

/-! ## WebSocketService: reconnect logic -/

/-- `WebSocketService.maxReconnectAttempts`. -/
def maxReconnectAttempts : Nat := 5

/-- `WebSocketService.reconnectDelay` (milliseconds). -/
def reconnectDelay : Nat := 3000

/-- The reconnect-relevant fields of `WebSocketService`: the attempt counter
and the pending `setTimeout` handle (carrying its delay). -/
structure WsState where
  reconnectAttempts : Nat
  reconnectTimer : Option Nat
deriving Repr, DecidableEq

/-- `WebSocketService.attemptReconnect`, fired by `ws.onclose`: at the cap it
returns without scheduling; otherwise it bumps the counter and schedules a
reconnect after `reconnectDelay`. The second component is the delay of the
timer scheduled by this call, if any. -/
def attemptReconnect (st : WsState) : WsState × Option Nat :=
  if st.reconnectAttempts ≥ maxReconnectAttempts then (st, none)
  else
    ({ st with
        reconnectAttempts := st.reconnectAttempts + 1
        reconnectTimer := some reconnectDelay },
      some reconnectDelay)

/-- `ws.onopen`: the attempt counter is reset to 0. -/
def wsOnOpen (st : WsState) : WsState :=
  { st with reconnectAttempts := 0 }

/-- `WebSocketService.disconnect`: clears any pending reconnect timer. -/
def wsDisconnect (st : WsState) : WsState :=
  { st with reconnectTimer := none }

/-- A burst of `n` consecutive unexpected closes with no successful open in
between: the final state plus the delays of every reconnect scheduled. -/
def runCloses (n : Nat) (st : WsState) : WsState × List Nat :=
  match n with
  | 0 => (st, [])
  | Nat.succ k =>
    let step := attemptReconnect st
    let rest := runCloses k step.1
    (rest.1, step.2.toList ++ rest.2)

/-! ## Message classification and concrete states used in the claims -/

/-- The two inbound kinds whose handlers clear the live selection state
(`bids_submitted` / `tricks_submitted`). -/
def clearsLiveState (m : ServerMessage) : Bool :=
  match m with
  | .bidsSubmitted _ _ _ => true
  | .tricksSubmitted _ => true
  | _ => false

/-- A service state in which seat 0 is bid-locked with live bid 2, observed by
the client resolved to seat 1. -/
def lockedSeatState : GameServiceState :=
  { gameState := none
    currentPhase := Phase.bidding
    currentBids := none
    currentTrumpSuit := none
    liveBidSelections := [(0, 2)]
    liveTrickSelections := []
    liveTrumpSelection := none
    lockedBids := [0]
    lockedTricks := []
    loading := false
    errorMsg := none
    currentPlayerIndex := some 1 }

/-- The same session observed by a spectator: no resolved seat. -/
def spectatorState : GameServiceState :=
  { lockedSeatState with currentPlayerIndex := none }

/-- An identity context carrying no caller identity. -/
def idCtxNone : IdentityCtx :=
  { tokenUserId := none, authUserId := none }

/-- The identity context of the C8 witness: a token differing from the seat
binding in case, punctuation and surrounding whitespace. -/
def ctxC8 : IdentityCtx :=
  { tokenUserId := some " ab-cd12 ", authUserId := none }

/-- A session snapshot with no seat bindings. -/
def gEmpty : GameInfo :=
  { playerUserIds := [], ownerId := none }

/-- A fresh WebSocket service state: no reconnect attempts, no pending timer. -/
def wsFresh : WsState :=
  { reconnectAttempts := 0, reconnectTimer := none }

/-- The bidding component about to submit the bids `[3,4,0,7]` (total 14). -/
def bidWitnessState : BiddingPhaseState :=
  { selectedTrumpSuit := some "hearts", bids := [3, 4, 0, 7], liveBids := [],
    totalBids := 14, roundMode := RoundMode.over, currentPlayerIndex := some 0 }

/-- The tricks component about to submit the tricks `[3,4,0,6]` (total 13). -/
def trickWitnessState : TricksPhaseState :=
  { tricks := [3, 4, 0, 6], liveTricks := [], bids := [3, 4, 0, 7],
    totalTricks := 13, currentPlayerIndex := some 0, lockedTricks := [],
    isGameOwner := false }

/-- A service state holding committed bids from an earlier successful submit. -/
def priorBidsState : GameServiceState :=
  { gameState := some { playerUserIds := [], ownerId := none }
    currentPhase := Phase.bidding
    currentBids := some [1, 2, 3, 4]
    currentTrumpSuit := some "hearts"
    liveBidSelections := []
    liveTrickSelections := []
    liveTrumpSelection := none
    lockedBids := []
    lockedTricks := []
    loading := false
    errorMsg := none
    currentPlayerIndex := some 0 }

end Whist

namespace Whist

/-! ## Claims C1, C2, C7 -/

/-- Helper: an `if`-guarded `some` is defined exactly when the guard holds. -/
theorem isSome_ite_some {α : Type} (c : Prop) [Decidable c] (x : α) :
    (if c then some x else none).isSome ↔ c := by
  by_cases h : c
  · simp [h]
  · simp [h]

/-- C1: a bids submit is emitted iff every bid is in `[0,13]` and the total is
not exactly 13; a rejected submit leaves the component state untouched (no
event reaches the service, so no message is sent and the phase subject, which
is only written by inbound `phase_update`/`bids_submitted`/`tricks_submitted`
handlers, stays at Bidding). The hypothesis is the sync invariant
`totalBids = sum of bids` that `updateTotalBids` maintains whenever the live
map agrees with the local array. -/
theorem c1_submit_bids_guard (st : BiddingPhaseState)
    (h : st.totalBids = intSum st.bids) :
    (((biddingOnSubmitRun st).2).isSome ↔
      ((∀ b ∈ st.bids, 0 ≤ b ∧ b ≤ 13) ∧ intSum st.bids ≠ 13)) ∧
    (biddingOnSubmitRun st).1 = st := by
  constructor
  · simp only [biddingOnSubmitRun, biddingOnSubmit, h]
    rw [isSome_ite_some]
    simp [Bool.and_eq_true, List.all_eq_true, decide_eq_true_eq, bne_iff_ne]
  · rfl

/-- Witness for C1 at the end-to-end scenario bids `[3,4,0,7]` (sum 14). -/
theorem c1_submit_bids_guard_witness :
    ((biddingOnSubmitRun bidWitnessState).2).isSome = true ∧
    (biddingOnSubmitRun bidWitnessState).1 = bidWitnessState :=
  ⟨(c1_submit_bids_guard bidWitnessState (by decide)).1.mpr (by decide),
   (c1_submit_bids_guard bidWitnessState (by decide)).2⟩

/-- C2: a tricks submit is emitted iff every trick count is in `[0,13]` and the
total is exactly 13; the hypothesis is the sync invariant maintained by
`updateTotalTricks`. -/
theorem c2_submit_tricks_guard (st : TricksPhaseState)
    (h : st.totalTricks = intSum st.tricks) :
    (((tricksOnSubmitRun st).2).isSome ↔
      ((∀ t ∈ st.tricks, 0 ≤ t ∧ t ≤ 13) ∧ intSum st.tricks = 13)) ∧
    (tricksOnSubmitRun st).1 = st := by
  constructor
  · simp only [tricksOnSubmitRun, tricksOnSubmit, h]
    rw [isSome_ite_some]
    simp only [Bool.and_eq_true, List.all_eq_true, Bool.and_eq_true,
      decide_eq_true_eq, beq_iff_eq]
    exact ⟨fun hc => ⟨hc.2, hc.1⟩, fun hc => ⟨hc.2, hc.1⟩⟩
  · rfl

/-- Witness for C2 at tricks `[3,4,0,6]` (sum 13). -/
theorem c2_submit_tricks_guard_witness :
    ((tricksOnSubmitRun trickWitnessState).2).isSome = true ∧
    (tricksOnSubmitRun trickWitnessState).1 = trickWitnessState :=
  ⟨(c2_submit_tricks_guard trickWitnessState (by decide)).1.mpr (by decide),
   (c2_submit_tricks_guard trickWitnessState (by decide)).2⟩

/-- C7: `updateTotalBids` derives the round mode as `over` exactly when the
merged bid total is strictly greater than 13, and `under` otherwise. -/
theorem c7_round_mode_derivation (st : BiddingPhaseState) :
    ((updateTotalBids st).roundMode = RoundMode.over ↔
      intSum (applyLiveEntries st.bids st.liveBids) > 13) ∧
    ((updateTotalBids st).roundMode = RoundMode.under ↔
      intSum (applyLiveEntries st.bids st.liveBids) ≤ 13) := by
  simp only [updateTotalBids]
  by_cases h : intSum (applyLiveEntries st.bids st.liveBids) > 13
  · simp [h]
  · simp [h, not_lt.mp h, not_lt]

/-! ## Claims C3 and C4 -/

/-- Helper: a `Nat` option that differs from `some s` compares `== some s`
as `false`. -/
theorem beq_some_false (o : Option Nat) (s : Nat) (h : o ≠ some s) :
    (o == some s) = false := by
  cases hc : o == some s
  · rfl
  · exact absurd (eq_of_beq hc) h

/-- C3: a caller with `isGameOwner = false` whose resolved seat is not `s`
sends no selection or lock message touching seat `s` (so nothing downstream
can change seat `s`'s live value or lock state on its behalf), and a caller
resolved to no seat additionally sends no trump selection — no selection
state at all. The contrapositive of the first clause is the seat-holder rule:
a non-owner's non-empty send implies the target is their own seat. -/
theorem c3_unauthorized_caller_sends_nothing (st : GameServiceState)
    (connected : Bool) (s : Nat) (bid trick : Int) (trumpSuit : Option String) :
    (st.currentPlayerIndex ≠ some s →
      sendBidSelection st connected s bid false = [] ∧
      sendTrickSelection st connected s trick false = [] ∧
      lockBid st connected false s = [] ∧
      lockTrick st connected false s = []) ∧
    (st.currentPlayerIndex = none →
      sendBidSelection st connected s bid false = [] ∧
      sendTrickSelection st connected s trick false = [] ∧
      lockBid st connected false s = [] ∧
      lockTrick st connected false s = [] ∧
      sendTrumpSelection st connected trumpSuit = []) := by
  constructor
  · intro hne
    have hbeq := beq_some_false _ _ hne
    refine ⟨?_, ?_, ?_, ?_⟩
    · simp [sendBidSelection, hbeq]
    · simp [sendTrickSelection, hbeq]
    · simp [lockBid, hbeq]
    · simp [lockTrick, hbeq]
  · intro hnone
    have hne : st.currentPlayerIndex ≠ some s := by simp [hnone]
    have hbeq := beq_some_false _ _ hne
    refine ⟨?_, ?_, ?_, ?_, ?_⟩
    · simp [sendBidSelection, hbeq]
    · simp [sendTrickSelection, hbeq]
    · simp [lockBid, hbeq]
    · simp [lockTrick, hbeq]
    · simp [sendTrumpSelection, hnone]

/-- Witness for C3: a spectator (no seat, not owner) targeting seat 0. -/
theorem c3_unauthorized_caller_sends_nothing_witness :
    sendBidSelection spectatorState true 0 3 false = [] ∧
    sendTrickSelection spectatorState true 0 3 false = [] ∧
    lockBid spectatorState true false 0 = [] ∧
    lockTrick spectatorState true false 0 = [] ∧
    sendTrumpSelection spectatorState true (some "hearts") = [] :=
  (c3_unauthorized_caller_sends_nothing spectatorState true 0 3 3
    (some "hearts")).2 rfl

/-- Helper: `setInsert` preserves membership. -/
theorem mem_setInsert (s : List Nat) (k a : Nat) (h : a ∈ s) :
    a ∈ setInsert s k := by
  unfold setInsert
  by_cases hc : s.contains k = true
  · rw [if_pos hc]; exact h
  · rw [if_neg hc]; exact List.mem_append_left _ h

/-- C4 counterexample: seat 0 is bid-locked with stored live bid 2, yet the
inbound `bid_selection` handler overwrites the stored value to 5 — the claim
that no `*_selection` message for a locked seat changes the stored selection
value fails on the code (the handler applies broadcasts without consulting
the lock set). -/
theorem c4_locked_seat_overwritten_counterexample :
    lockedSeatState.lockedBids.contains 0 = true ∧
    selLookup lockedSeatState.liveBidSelections 0 = some 2 ∧
    selLookup (handleMessage { tokenUserId := none, authUserId := none }
        lockedSeatState (ServerMessage.bidSelection 0 5)).liveBidSelections 0 =
      some 5 := by
  decide

/-- C4 (amended): once seat `s` is locked for a kind, the client sends no
further `*_selection` or lock message for `(s, kind)` regardless of authority
(the guard precedes the owner check, so even `isGameOwner`/`isOwner` callers
are stopped); an inbound lock message for an already-locked seat leaves the
lock set unchanged; and no inbound message other than the two submit
broadcasts (which clear the sets wholesale on the phase transition) ever
removes a seat from a lock set. An inbound `*_selection` broadcast, however,
still overwrites the stored live value of a locked seat
(`c4_locked_seat_overwritten_counterexample`). -/
theorem c4_locked_seat_guard (st : GameServiceState) (ctx : IdentityCtx)
    (connected isOwner isGameOwner : Bool) (s : Nat) (bid trick : Int) :
    (isBidLocked st s = true →
      sendBidSelection st connected s bid isGameOwner = [] ∧
      lockBid st connected isOwner s = [] ∧
      (handleMessage ctx st (ServerMessage.betLocked s)).lockedBids =
        st.lockedBids) ∧
    (isTrickLocked st s = true →
      sendTrickSelection st connected s trick isGameOwner = [] ∧
      lockTrick st connected isOwner s = [] ∧
      (handleMessage ctx st (ServerMessage.roundScoreLocked s)).lockedTricks =
        st.lockedTricks) ∧
    (∀ m : ServerMessage, clearsLiveState m = false →
      (s ∈ st.lockedBids → s ∈ (handleMessage ctx st m).lockedBids) ∧
      (s ∈ st.lockedTricks → s ∈ (handleMessage ctx st m).lockedTricks)) := by
  refine ⟨?_, ?_, ?_⟩
  · intro h
    refine ⟨?_, ?_, ?_⟩
    · simp [sendBidSelection, h]
    · simp [lockBid, h]
    · simp only [handleMessage]
      simp [setInsert, isBidLocked] at h ⊢
      simp [h]
  · intro h
    refine ⟨?_, ?_, ?_⟩
    · simp [sendTrickSelection, h]
    · simp [lockTrick, h]
    · simp only [handleMessage]
      simp [setInsert, isTrickLocked] at h ⊢
      simp [h]
  · intro m hm
    cases m with
    | betLocked i => exact ⟨fun h => mem_setInsert _ _ _ h, fun h => h⟩
    | roundScoreLocked i => exact ⟨fun h => h, fun h => mem_setInsert _ _ _ h⟩
    | bidsSubmitted g db dt => simp [clearsLiveState] at hm
    | tricksSubmitted g => simp [clearsLiveState] at hm
    | gameUpdate g => exact ⟨fun h => h, fun h => h⟩
    | phaseUpdate p => exact ⟨fun h => h, fun h => h⟩
    | bidSelection i b => exact ⟨fun h => h, fun h => h⟩
    | betChange i b => exact ⟨fun h => h, fun h => h⟩
    | roundResultChanged i t => exact ⟨fun h => h, fun h => h⟩
    | trickSelection i t => exact ⟨fun h => h, fun h => h⟩
    | trumpSelection suit => exact ⟨fun h => h, fun h => h⟩
    | errorNotice msg => exact ⟨fun h => h, fun h => h⟩

/-- Witness for C4 (amended) at the locked seat 0 of `lockedSeatState`, with
an owner caller: even the owner's selection and lock calls send nothing, and
a redundant inbound lock leaves the lock set as it was. -/
theorem c4_locked_seat_guard_witness :
    sendBidSelection lockedSeatState true 0 7 true = [] ∧
    lockBid lockedSeatState true true 0 = [] ∧
    (handleMessage idCtxNone lockedSeatState
        (ServerMessage.betLocked 0)).lockedBids = lockedSeatState.lockedBids :=
  (c4_locked_seat_guard lockedSeatState idCtxNone true true true 0 7 7).1
    (by decide)

/-! ## Claims C5 and C6 -/

/-- C5: both successful-submit broadcasts fully reset the live selection
state — empty bid and trick maps, empty lock sets, null trump — and set the
phase to the other side of the cycle, so a submit arriving in its own phase
flips the phase (`bids_submitted`: Bidding to Tricks, `tricks_submitted`:
Tricks back to Bidding for the next round). -/
theorem c5_submit_resets_live_state (st : GameServiceState) (ctx : IdentityCtx)
    (g : GameInfo) (dataBids : Option (List Int)) (dataTrump : Option String) :
    ((handleMessage ctx st
        (ServerMessage.bidsSubmitted g dataBids dataTrump)).liveBidSelections = [] ∧
      (handleMessage ctx st
        (ServerMessage.bidsSubmitted g dataBids dataTrump)).liveTrickSelections = [] ∧
      (handleMessage ctx st
        (ServerMessage.bidsSubmitted g dataBids dataTrump)).liveTrumpSelection = none ∧
      (handleMessage ctx st
        (ServerMessage.bidsSubmitted g dataBids dataTrump)).lockedBids = [] ∧
      (handleMessage ctx st
        (ServerMessage.bidsSubmitted g dataBids dataTrump)).lockedTricks = [] ∧
      (handleMessage ctx st
        (ServerMessage.bidsSubmitted g dataBids dataTrump)).currentPhase =
        Phase.tricks ∧
      (st.currentPhase = Phase.bidding →
        (handleMessage ctx st
          (ServerMessage.bidsSubmitted g dataBids dataTrump)).currentPhase ≠
          st.currentPhase)) ∧
    ((handleMessage ctx st (ServerMessage.tricksSubmitted g)).liveBidSelections = [] ∧
      (handleMessage ctx st (ServerMessage.tricksSubmitted g)).liveTrickSelections = [] ∧
      (handleMessage ctx st (ServerMessage.tricksSubmitted g)).liveTrumpSelection = none ∧
      (handleMessage ctx st (ServerMessage.tricksSubmitted g)).lockedBids = [] ∧
      (handleMessage ctx st (ServerMessage.tricksSubmitted g)).lockedTricks = [] ∧
      (handleMessage ctx st (ServerMessage.tricksSubmitted g)).currentPhase =
        Phase.bidding ∧
      (st.currentPhase = Phase.tricks →
        (handleMessage ctx st (ServerMessage.tricksSubmitted g)).currentPhase ≠
          st.currentPhase)) := by
  refine ⟨⟨rfl, rfl, rfl, rfl, rfl, rfl, ?_⟩, ⟨rfl, rfl, rfl, rfl, rfl, rfl, ?_⟩⟩
  · intro h
    simp only [handleMessage, h]
    decide
  · intro h
    simp only [handleMessage, h]
    decide

/-- Witness for C5 on the locked, partially selected `lockedSeatState`,
which is in the Bidding phase: after `bids_submitted`, the live state is
empty, the trump null, both lock sets empty, and the phase has flipped. -/
theorem c5_submit_resets_live_state_witness :
    (handleMessage idCtxNone lockedSeatState
        (ServerMessage.bidsSubmitted gEmpty (some [3, 4, 0, 7])
          (some "hearts"))).liveBidSelections = [] ∧
    (handleMessage idCtxNone lockedSeatState
        (ServerMessage.bidsSubmitted gEmpty (some [3, 4, 0, 7])
          (some "hearts"))).liveTrickSelections = [] ∧
    (handleMessage idCtxNone lockedSeatState
        (ServerMessage.bidsSubmitted gEmpty (some [3, 4, 0, 7])
          (some "hearts"))).liveTrumpSelection = none ∧
    (handleMessage idCtxNone lockedSeatState
        (ServerMessage.bidsSubmitted gEmpty (some [3, 4, 0, 7])
          (some "hearts"))).lockedBids = [] ∧
    (handleMessage idCtxNone lockedSeatState
        (ServerMessage.bidsSubmitted gEmpty (some [3, 4, 0, 7])
          (some "hearts"))).lockedTricks = [] ∧
    (handleMessage idCtxNone lockedSeatState
        (ServerMessage.bidsSubmitted gEmpty (some [3, 4, 0, 7])
          (some "hearts"))).currentPhase = Phase.tricks ∧
    (handleMessage idCtxNone lockedSeatState
        (ServerMessage.bidsSubmitted gEmpty (some [3, 4, 0, 7])
          (some "hearts"))).currentPhase ≠ lockedSeatState.currentPhase := by
  have h := c5_submit_resets_live_state lockedSeatState idCtxNone gEmpty
    (some [3, 4, 0, 7]) (some "hearts")
  exact ⟨h.1.1, h.1.2.1, h.1.2.2.1, h.1.2.2.2.1, h.1.2.2.2.2.1,
    h.1.2.2.2.2.2.1, h.1.2.2.2.2.2.2 rfl⟩

/-- C6: trump is one session-wide value. A connected caller with any resolved
seat `i` always sends the `trump_selection` message — the send consults no
target seat, no owner flag, and neither lock set (the result is invariant
under arbitrary lock sets); each inbound `trump_selection` overwrites the
previous live value unconditionally, so the last write wins; and no handler
before the submit broadcasts touches trump through a lock. -/
theorem c6_trump_session_wide (st : GameServiceState) (ctx : IdentityCtx)
    (i : Nat) (suit suitB : Option String) (L1 L2 M1 M2 : List Nat)
    (hseat : st.currentPlayerIndex = some i) :
    sendTrumpSelection st true suit = [ClientMessage.trumpSelection suit] ∧
    sendTrumpSelection { st with lockedBids := M1, lockedTricks := M2 } true suit =
      sendTrumpSelection { st with lockedBids := L1, lockedTricks := L2 } true suit ∧
    (handleMessage ctx st (ServerMessage.trumpSelection suit)).liveTrumpSelection =
      suit ∧
    (handleMessage ctx
        (handleMessage ctx st (ServerMessage.trumpSelection suit))
        (ServerMessage.trumpSelection suitB)).liveTrumpSelection = suitB ∧
    (handleMessage ctx st (ServerMessage.trumpSelection suit)).lockedBids =
      st.lockedBids ∧
    (handleMessage ctx st (ServerMessage.trumpSelection suit)).lockedTricks =
      st.lockedTricks := by
  refine ⟨?_, ?_, rfl, rfl, rfl, rfl⟩
  · simp [sendTrumpSelection, hseat]
  · simp [sendTrumpSelection, hseat]

/-- Witness for C6: seat 1 sets trump twice; the second value stands. -/
theorem c6_trump_session_wide_witness :
    sendTrumpSelection lockedSeatState true (some "spades") =
      [ClientMessage.trumpSelection (some "spades")] ∧
    sendTrumpSelection
        { lockedSeatState with lockedBids := [0, 1, 2, 3], lockedTricks := [2] }
        true (some "spades") =
      sendTrumpSelection
        { lockedSeatState with lockedBids := [], lockedTricks := [] }
        true (some "spades") ∧
    (handleMessage { tokenUserId := none, authUserId := none } lockedSeatState
        (ServerMessage.trumpSelection (some "spades"))).liveTrumpSelection =
      some "spades" ∧
    (handleMessage { tokenUserId := none, authUserId := none }
        (handleMessage { tokenUserId := none, authUserId := none } lockedSeatState
          (ServerMessage.trumpSelection (some "spades")))
        (ServerMessage.trumpSelection none)).liveTrumpSelection = none ∧
    (handleMessage { tokenUserId := none, authUserId := none } lockedSeatState
        (ServerMessage.trumpSelection (some "spades"))).lockedBids =
      lockedSeatState.lockedBids ∧
    (handleMessage { tokenUserId := none, authUserId := none } lockedSeatState
        (ServerMessage.trumpSelection (some "spades"))).lockedTricks =
      lockedSeatState.lockedTricks :=
  c6_trump_session_wide lockedSeatState _ 1 (some "spades") none [] []
    [0, 1, 2, 3] [2] rfl

/-! ## Claim C8 -/

/-- Helper: a found index points at an element satisfying the predicate. -/
theorem findIndex_some {α : Type} (p : α → Bool) (l : List α) (i : Nat)
    (h : findIndex p l = some i) : ∃ a, l.get? i = some a ∧ p a = true := by
  induction l generalizing i with
  | nil => simp [findIndex] at h
  | cons a as ih =>
    by_cases hp : p a = true
    · simp [findIndex, hp] at h
      subst h
      exact ⟨a, rfl, hp⟩
    · simp [findIndex, hp] at h
      obtain ⟨j, hj, hji⟩ := h
      obtain ⟨b, hb, hpb⟩ := ih j hj
      exact ⟨b, by simpa [← hji] using hb, hpb⟩

/-- Helper: if nothing satisfies the predicate, `findIndex` yields `none`. -/
theorem findIndex_none {α : Type} (p : α → Bool) (l : List α)
    (h : ∀ a ∈ l, p a = false) : findIndex p l = none := by
  induction l with
  | nil => rfl
  | cons a as ih =>
    have ha : p a = false := h a (List.mem_cons_self a as)
    have has : findIndex p as = none := ih (fun b hb => h b (List.mem_cons_of_mem a hb))
    simp [findIndex, ha, has]

/-- C8: seat resolution. If the caller's token identity has a truthy
normalized form `nt` (the source's `if (normalizedTokenId)` guard) and some
seat id normalizes to `nt`, the resolver returns that seat's index, which
indeed holds an identity matching the caller after the
trim/lower-case/dash-stripping normalization; when no seat matches the caller
under any of the three comparison paths the resolver returns `null` — an
ordinary value, not an error; and the `game_update` handler recomputes the
resolved seat from the fresh session state, so a caller bound to a seat
mid-session acquires it on the next update. -/
theorem c8_seat_resolution (ids : List (Option String)) (ctx : IdentityCtx)
    (nt : String) (i : Nat) (st : GameServiceState) (g : GameInfo)
    (h1 : truthy (normalizeUuid ctx.tokenUserId) = some nt)
    (h2 : findIndex (seatMatchesNorm nt) ids = some i)
    (hne : ids ≠ []) :
    (resolveSeat ids ctx = some i ∧
      ∃ id, ids.get? i = some id ∧ seatMatchesNorm nt id = true) ∧
    ((∀ a ∈ g.playerUserIds, seatMatchesNorm nt a = false) →
      (∀ nu, truthy (normalizeUuid ctx.authUserId) = some nu →
        ∀ a ∈ g.playerUserIds, seatMatchesNorm nu a = false) →
      (∀ t, truthy ctx.tokenUserId = some t →
        ∀ a ∈ g.playerUserIds, seatMatchesRaw t a = false) →
      resolveSeat g.playerUserIds ctx = none) ∧
    (handleMessage ctx st (ServerMessage.gameUpdate g)).currentPlayerIndex =
      resolveSeat g.playerUserIds ctx := by
  refine ⟨⟨?_, findIndex_some _ _ _ h2⟩, ?_, rfl⟩
  · have hempty : ids.isEmpty = false := by
      cases ids with
      | nil => exact absurd rfl hne
      | cons a as => rfl
    simp only [resolveSeat, hempty, h1, h2]
    rfl
  · intro hTok hAuth hRaw
    by_cases hempty : g.playerUserIds.isEmpty = true
    · simp [resolveSeat, hempty]
    · have h0 : findIndex (seatMatchesNorm nt) g.playerUserIds = none :=
        findIndex_none _ _ hTok
      simp only [resolveSeat, hempty, h1, h0, Bool.false_eq_true, if_false]
      have hu : (match truthy (normalizeUuid ctx.authUserId) with
          | some nu => findIndex (seatMatchesNorm nu) g.playerUserIds
          | none => none) = (none : Option Nat) := by
        cases hau : truthy (normalizeUuid ctx.authUserId) with
        | none => rfl
        | some nu => simpa using findIndex_none _ _ (hAuth nu hau)
      have hr : (match truthy ctx.tokenUserId with
          | some t => findIndex (seatMatchesRaw t) g.playerUserIds
          | none => none) = (none : Option Nat) := by
        cases htr : truthy ctx.tokenUserId with
        | none => rfl
        | some t => simpa using findIndex_none _ _ (hRaw t htr)
      simp only [hu, hr]

/-- Witness for C8: the seat id `"AB-CD-12"` is matched by the token
`" ab-cd12 "` after trimming, lower-casing, and dash removal; the new session
state of the `game_update` carries no seats, so resolution against it yields
`null` and the handler installs exactly that recomputed value. -/
theorem c8_seat_resolution_witness :
    resolveSeat [some "AB-CD-12"] ctxC8 = some 0 ∧
    resolveSeat gEmpty.playerUserIds ctxC8 = none ∧
    (handleMessage ctxC8 lockedSeatState
        (ServerMessage.gameUpdate gEmpty)).currentPlayerIndex =
      resolveSeat gEmpty.playerUserIds ctxC8 := by
  have h := c8_seat_resolution [some "AB-CD-12"] ctxC8 "abcd12" 0
    lockedSeatState gEmpty (by decide) (by decide) (by decide)
  exact ⟨h.1.1,
    h.2.1 (by decide) (fun nu hnu a ha => nomatch ha)
      (fun t ht a ha => nomatch ha),
    h.2.2⟩

/-! ## Claims C9 and C10 -/

/-- C9 counterexample: with committed bids `[1,2,3,4]` already stored from an
earlier round, a submit whose send fails nulls `currentBids` instead of
restoring it — so a failed submit does not leave the client's committed-bid
state unchanged. -/
theorem c9_failed_send_changes_prior_bids_counterexample :
    priorBidsState.currentBids = some [1, 2, 3, 4] ∧
    (submitBidsRun priorBidsState true (some "boom") [2, 3, 4, 5]
        (some "spades")).state.currentBids = none ∧
    (submitBidsRun priorBidsState true (some "boom") [2, 3, 4, 5]
        (some "spades")).state.currentBids ≠ priorBidsState.currentBids := by
  refine ⟨rfl, rfl, ?_⟩
  decide

/-- C9 (amended): if the transport is not open when `submitBids` is called
(with a game loaded), the call throws `'WebSocket is not connected'`, sends
no message, and changes no state — in particular the tentative store never
happens; and whenever the send itself throws, the tentatively stored
`currentBids` and `currentTrumpSuit` are set back to `null` (not restored to
their prior values), the error is surfaced and rethrown, and no message goes
out. -/
theorem c9_submit_bids_failure_handling (st : GameServiceState)
    (bids : List Int) (trumpSuit : Option String) (em : String)
    (fault : Option String) (g : GameInfo)
    (hgame : st.gameState = some g) :
    ((submitBidsRun st false fault bids trumpSuit).result =
        Except.error "WebSocket is not connected" ∧
      (submitBidsRun st false fault bids trumpSuit).sent = [] ∧
      (submitBidsRun st false fault bids trumpSuit).state = st) ∧
    ((submitBidsRun st true (some em) bids trumpSuit).state.currentBids = none ∧
      (submitBidsRun st true (some em) bids trumpSuit).state.currentTrumpSuit =
        none ∧
      (submitBidsRun st true (some em) bids trumpSuit).sent = [] ∧
      (submitBidsRun st true (some em) bids trumpSuit).result =
        Except.error em) := by
  refine ⟨⟨?_, ?_, ?_⟩, ⟨?_, ?_, ?_, ?_⟩⟩ <;>
    simp [submitBidsRun, hgame]

/-- Witness for C9 (amended) on `priorBidsState`. -/
theorem c9_submit_bids_failure_handling_witness :
    ((submitBidsRun priorBidsState false none [2, 3, 4, 5] (some "spades")).result =
        Except.error "WebSocket is not connected" ∧
      (submitBidsRun priorBidsState false none [2, 3, 4, 5] (some "spades")).sent =
        [] ∧
      (submitBidsRun priorBidsState false none [2, 3, 4, 5] (some "spades")).state =
        priorBidsState) ∧
    ((submitBidsRun priorBidsState true (some "boom") [2, 3, 4, 5]
        (some "spades")).state.currentBids = none ∧
      (submitBidsRun priorBidsState true (some "boom") [2, 3, 4, 5]
        (some "spades")).state.currentTrumpSuit = none ∧
      (submitBidsRun priorBidsState true (some "boom") [2, 3, 4, 5]
        (some "spades")).sent = [] ∧
      (submitBidsRun priorBidsState true (some "boom") [2, 3, 4, 5]
        (some "spades")).result = Except.error "boom") :=
  c9_submit_bids_failure_handling priorBidsState [2, 3, 4, 5] (some "spades")
    "boom" none { playerUserIds := [], ownerId := none } rfl

/-- Helper: over a burst of closes, the number of reconnects scheduled is the
remaining attempt budget capped by the number of closes, and every scheduled
timer uses the fixed delay. -/
theorem runCloses_spec (n : Nat) : ∀ st : WsState,
    ((runCloses n st).2).length =
      min n (maxReconnectAttempts - st.reconnectAttempts) ∧
    ∀ d ∈ (runCloses n st).2, d = reconnectDelay := by
  induction n with
  | zero => intro st; simp [runCloses]
  | succ k ih =>
    intro st
    by_cases h : st.reconnectAttempts ≥ maxReconnectAttempts
    · have ha : attemptReconnect st = (st, none) := by
        simp [attemptReconnect, h]
      have hrec := ih st
      simp only [runCloses, ha, Option.toList_none, List.nil_append]
      refine ⟨?_, hrec.2⟩
      rw [hrec.1]
      omega
    · have ha : attemptReconnect st =
          ({ st with
              reconnectAttempts := st.reconnectAttempts + 1
              reconnectTimer := some reconnectDelay },
            some reconnectDelay) := by
        simp [attemptReconnect, h]
      have hrec := ih { st with
        reconnectAttempts := st.reconnectAttempts + 1
        reconnectTimer := some reconnectDelay }
      simp only [runCloses, ha, Option.toList_some, List.singleton_append]
      constructor
      · simp only [List.length_cons, hrec.1]
        omega
      · intro d hd
        rcases List.mem_cons.mp hd with h1 | h2
        · exact h1
        · exact hrec.2 d h2

/-- C10: starting from a state whose attempt counter is 0 (fresh connection or
just after a successful open, which resets it), a run of `n` unexpected closes
schedules exactly `min n 5` reconnects — never more than 5 — and every one of
them fires 3000 ms after its close; once the counter has reached the cap a
further close schedules nothing and changes nothing; and an explicit
`disconnect` clears any pending reconnect timer. -/
theorem c10_reconnect_bounded (st : WsState) (n : Nat)
    (hfresh : st.reconnectAttempts = 0) :
    ((runCloses n st).2).length = min n maxReconnectAttempts ∧
    ((runCloses n st).2).length ≤ 5 ∧
    (∀ d ∈ (runCloses n st).2, d = reconnectDelay) ∧
    reconnectDelay = 3000 ∧
    maxReconnectAttempts = 5 ∧
    (∀ st2 : WsState, st2.reconnectAttempts ≥ maxReconnectAttempts →
      attemptReconnect st2 = (st2, none)) ∧
    (∀ st2 : WsState, (wsDisconnect st2).reconnectTimer = none) := by
  have hspec := runCloses_spec n st
  rw [hfresh] at hspec
  refine ⟨?_, ?_, hspec.2, rfl, rfl, ?_, ?_⟩
  · simpa using hspec.1
  · have := hspec.1
    simp only [maxReconnectAttempts] at this ⊢
    omega
  · intro st2 h2
    simp [attemptReconnect, h2]
  · intro st2
    rfl

/-- Witness for C10: a burst of 7 closes from a fresh connection schedules
exactly 5 reconnects, each with the 3000 ms delay; a sixth close at the cap
schedules nothing; disconnect clears a pending timer. -/
theorem c10_reconnect_bounded_witness :
    ((runCloses 7 wsFresh).2).length = min 7 maxReconnectAttempts ∧
    ((runCloses 7 wsFresh).2).length ≤ 5 ∧
    reconnectDelay = 3000 ∧
    maxReconnectAttempts = 5 ∧
    attemptReconnect { reconnectAttempts := 5, reconnectTimer := none } =
      ({ reconnectAttempts := 5, reconnectTimer := none }, none) ∧
    (wsDisconnect { reconnectAttempts := 2, reconnectTimer := some 3000 }).reconnectTimer =
      none := by
  have h := c10_reconnect_bounded wsFresh 7 rfl
  exact ⟨h.1, h.2.1, h.2.2.2.1, h.2.2.2.2.1,
    h.2.2.2.2.2.1 { reconnectAttempts := 5, reconnectTimer := none } (by decide),
    h.2.2.2.2.2.2 { reconnectAttempts := 2, reconnectTimer := some 3000 }⟩

end Whist
